import Mathlib

/-!
Verification development for the `podbackend` bookmark-to-podcast pipeline
(`src/server.js`).  The JavaScript functions `axiosWithRetry`,
`generateSpeech`, `generatePodcastAudio` and `generateSummaryAndPodcast` are
shallowly embedded below.  External collaborators (the HTTP fetch + cheerio
DOM, the Gemini text endpoints, the ElevenLabs TTS endpoint, the locale date
renderer) are modelled as oracle fields of the `Collabs` structure; everything
the repository's own code does with their answers is translated directly from
the source.  Strings that the code manipulates character by character are
modelled as `List Char`.
-/

set_option maxRecDepth 8000

namespace Podbackend

instance {ε α : Type} [DecidableEq ε] [DecidableEq α] : DecidableEq (Except ε α) :=
  fun a b =>
  match a, b with
  | Except.error e, Except.error f =>
    if h : e = f then isTrue (congrArg Except.error h)
    else isFalse (fun hh => h (Except.error.inj hh))
  | Except.error _, Except.ok _ => isFalse (fun hh => Except.noConfusion hh)
  | Except.ok _, Except.error _ => isFalse (fun hh => Except.noConfusion hh)
  | Except.ok x, Except.ok y =>
    if h : x = y then isTrue (congrArg Except.ok h)
    else isFalse (fun hh => h (Except.ok.inj hh))

/-- JavaScript `String.prototype.startsWith`, on the characters of the two
strings (kernel-computable form of `String.startsWith`). -/
def jsStartsWith (s pre : String) : Bool :=
  pre.toList.isPrefixOf s.toList

/-- String constants used by `server.js` (kept as named definitions). -/
def emptyStr : String := ""

/-- The `'Untitled'` fallback title. -/
def untitledStr : String := "Untitled"

/-- The `'http'` prefix checked by `generateSummaryAndPodcast` (line 368). -/
def httpStr : String := "http"

/-- Message of the error thrown at line 414: `'Not enough content extracted'`. -/
def notEnoughMsg : String := "Not enough content extracted"

/-- Message of the error thrown at line 346 when no line produced audio. -/
def noAudioMsg : String := "No audio was generated for any part of the conversation"

/-- The TypeError raised by `line.split(':')[1].trim()` (line 330) when the
line contains no colon, so that `split(':')[1]` is `undefined`. -/
def typeErrorMsg : String := "TypeError: Cannot read properties of undefined"

/-- Stub network-failure message used by concrete test collaborators. -/
def netErrMsg : String := "Network Error"

/-- The constant `audioContentId` returned at line 477. -/
def podcastAudioId : String := "podcast-audio"

/-- ASCII part of the JavaScript regex class `\s`. -/
def isJsSpace (c : Char) : Bool :=
  c = ' ' || c = '\t' || c = '\n' || c = '\r' || c = '\x0b' || c = '\x0c'

/-- JavaScript `String.prototype.trim` on a character list. -/
def jsTrim (l : List Char) : List Char :=
  ((l.dropWhile isJsSpace).reverse.dropWhile isJsSpace).reverse

/-- Worker for `.replace(/X+/g, r)`: `inRun` records whether the previous
character was part of a run already replaced. -/
def collapseRunsAux (p : Char → Bool) (r : Char) : Bool → List Char → List Char
  | _, [] => []
  | inRun, c :: cs =>
    if p c then
      if inRun then collapseRunsAux p r true cs
      else r :: collapseRunsAux p r true cs
    else c :: collapseRunsAux p r false cs

/-- `.replace(/X+/g, r)`: every maximal run of characters satisfying `p` is
replaced by the single character `r`. -/
def collapseRuns (p : Char → Bool) (r : Char) (l : List Char) : List Char :=
  collapseRunsAux p r false l

/-- `.replace(/\s+/g, ' ')` (line 410). -/
def collapseSpaces (l : List Char) : List Char := collapseRuns isJsSpace ' ' l

/-- `.replace(/\n+/g, ' ')` (line 410). -/
def collapseNewlines (l : List Char) : List Char :=
  collapseRuns (fun c => c = '\n') ' ' l

/-- Characters kept by `.replace(/[^\w\s.,!?-]/g, ' ')`: word characters,
whitespace, and the listed punctuation. -/
def isKeptChar (c : Char) : Bool :=
  c.isAlphanum || c = '_' || isJsSpace c ||
    c = '.' || c = ',' || c = '!' || c = '?' || c = '-'

/-- `.replace(/[^\w\s.,!?-]/g, ' ')` (line 410): each non-kept character is
replaced by a single space. -/
def punctToSpace (l : List Char) : List Char :=
  l.map (fun c => if isKeptChar c then c else ' ')

/-- The whole normalization chain of line 410:
`mainContent.replace(/\s+/g, ' ').replace(/\n+/g, ' ').replace(/[^\w\s.,!?-]/g, ' ').trim()`. -/
def normalizeContent (l : List Char) : List Char :=
  jsTrim (punctToSpace (collapseNewlines (collapseSpaces l)))

/-- JavaScript `a || b` on strings (empty string is falsy). -/
def jsOr (a b : String) : String := if a = emptyStr then b else a

/-- JavaScript `String.prototype.split(sep)` for a one-character separator:
splits on every occurrence, never dropping empty fields. -/
def splitOnChar (c : Char) : List Char → List (List Char)
  | [] => [[]]
  | x :: xs =>
    if x = c then [] :: splitOnChar c xs
    else
      match splitOnChar c xs with
      | [] => (x :: []) :: []
      | y :: ys => (x :: y) :: ys

/-- JavaScript indexing `xs[1]` on the result of a split: the second field when
it exists, `undefined` (here `none`) otherwise. -/
def secondField (xs : List (List Char)) : Option (List Char) :=
  (xs.drop 1).head?

/-- Characters of a line strictly between its first colon and its second colon
(or the end of the line when there is no second colon).  This is the
declarative description of what `line.split(':')[1]` denotes for a line
containing at least one colon. -/
def specSegment (l : List Char) : List Char :=
  ((l.dropWhile (fun x => x != ':')).drop 1).takeWhile (fun x => x != ':')

/-- A bookmark descriptor as received by `generateSummaryAndPodcast`:
`url` and `title` may be absent, `dateAdded` is a timestamp. -/
structure Bookmark where
  url : Option String
  title : Option String
  dateAdded : Nat
deriving DecidableEq

/-- The cheerio view of a successfully fetched page, at the boundary the code
uses it: `titleText` is `$('title').text()`; `select s` is the text of the
first match of selector `s` after the non-content sub-elements have been
removed (`none` when the selector matches nothing, i.e. `content.length == 0`);
`bodyText` is the stripped text of `$('body')`.  DOM manipulation itself is
external library behaviour. -/
structure Page where
  titleText : String
  select : String → Option (List Char)
  bodyText : List Char

/-- One per-bookmark fragment of the summary document, as appended by
`generateSummaryAndPodcast`: the success template (lines 429-437), the inner
catch template (lines 440-448, generation failure) and the outer catch
template (lines 452-460, fetch or extraction failure). -/
inductive Fragment where
  | success (url title summaryText : String) (dateAdded : Nat)
  | genError (url title errMsg : String) (dateAdded : Nat)
  | fetchError (url title errMsg : String) (dateAdded : Nat)
deriving DecidableEq

/-- External collaborators of the pipeline, stubbed deterministically:
`fetchPage` is the outcome of `axiosWithRetry` + `cheerio.load` for a URL;
`summarize` is `generateSummary` on the truncated content; `script` is
`generateConversationalScript` on content and title; `synth` is
`generateSpeech` on a line's text and its `isAlex` flag, returning audio
bytes; `renderDate` is `new Date(t).toLocaleDateString()`. -/
structure Collabs where
  fetchPage : String → Except String Page
  summarize : List Char → Except String String
  script : List Char → String → Except String (List Char)
  synth : List Char → Bool → Except String (List Nat)
  renderDate : Nat → String

/-- The value returned by `generateSummaryAndPodcast` (line 477), with the
summary document kept as its ordered list of fragments. -/
structure PipelineResult where
  summary : List Fragment
  audioBuffer : Option (List Nat)
  audioContentId : String

/-- The prioritized content-region selectors of lines 386-389, in source
order. -/
def contentSelectors : List String :=
  [r"article", r".article", r".post", r".entry", r"main", r".content",
   r".post-content", r".entry-content", r"#content", r".main-content",
   r".article-content", r".story-content", r".post-body", r".entry-body"]

/-- The selector loop of lines 391-401: `acc` is the current value of the
mutable `mainContent`.  A matching selector always overwrites `mainContent`
with its trimmed text; the loop breaks as soon as that text exceeds 100
characters. -/
def selectLoop (page : Page) : List String → List Char → List Char
  | [], acc => acc
  | s :: rest, acc =>
    match page.select s with
    | none => selectLoop page rest acc
    | some t =>
      let m := jsTrim t
      if 100 < m.length then m else selectLoop page rest m

/-- Lines 391-408: run the selector loop and fall back to the body text when
the retained content is empty (`!mainContent`) or shorter than 100
characters. -/
def extractMainContent (page : Page) : List Char :=
  let m := selectLoop page contentSelectors []
  if m = [] ∨ m.length < 100 then jsTrim page.bodyText else m

/-- Spec-side helper: trimmed text of the first selector, in priority order,
whose candidate text exceeds 100 characters ("the first candidate whose
extracted text exceeds 100 characters"). -/
def firstLongIn (page : Page) : List String → Option (List Char)
  | [] => none
  | s :: rest =>
    match page.select s with
    | none => firstLongIn page rest
    | some t =>
      if 100 < (jsTrim t).length then some (jsTrim t) else firstLongIn page rest

/-- Spec-side helper: trimmed text of the last selector in the list that
matches anything at all. -/
def lastMatchIn (page : Page) : List String → Option (List Char)
  | [] => none
  | s :: rest =>
    match lastMatchIn page rest with
    | some t => some t
    | none => (page.select s).map jsTrim

/-- Declarative description of the content selection actually implemented:
the first candidate exceeding 100 characters wins; otherwise the last
matching candidate is retained and used exactly when it has at least 100
characters; otherwise the body text is used. -/
def extractSpec (page : Page) : List Char :=
  match firstLongIn page contentSelectors with
  | some t => t
  | none =>
    match lastMatchIn page contentSelectors with
    | some t => if 100 ≤ t.length then t else jsTrim page.bodyText
    | none => jsTrim page.bodyText

/-- Line 382: `const title = bookmark.title || $('title').text() || 'Untitled'`. -/
def pageTitle (bm : Bookmark) (page : Page) : String :=
  jsOr (bm.title.getD emptyStr) (jsOr page.titleText untitledStr)

/-- The fully normalized main content of a fetched page (lines 385-410). -/
def pageText (page : Page) : List Char :=
  normalizeContent (extractMainContent page)

/-- Observable events of one `axiosWithRetry` call: an attempt (the `axios`
call for loop index `i`) or a backoff sleep of `ms` milliseconds. -/
inductive FetchEvent where
  | attempt (i : Nat)
  | sleep (ms : Nat)
deriving DecidableEq

/-- Message standing for the `undefined` that `axiosWithRetry` would return if
its loop ever exhausted without returning or throwing (dead code for
`maxRetries = 3`). -/
def loopExitMsg : String := "axiosWithRetry returned undefined"

/-- The loop of `axiosWithRetry` (lines 18-28).  `oracle i` is the outcome of
the `axios` call on iteration `i`; the fuel argument counts the remaining
iterations (`maxRetries - i`).  On failure at `i = maxRetries - 1` the error
is rethrown; otherwise the loop sleeps `1000 * (i + 1)` ms and retries. -/
def axiosRetryLoop (oracle : Nat → Except String Page) (maxRetries : Nat) :
    Nat → Nat → List FetchEvent × Except String Page
  | _, 0 => ([], Except.error loopExitMsg)
  | i, fuel + 1 =>
    match oracle i with
    | Except.ok p => ([FetchEvent.attempt i], Except.ok p)
    | Except.error e =>
      if i = maxRetries - 1 then ([FetchEvent.attempt i], Except.error e)
      else
        let next := axiosRetryLoop oracle maxRetries (i + 1) fuel
        (FetchEvent.attempt i :: FetchEvent.sleep (1000 * (i + 1)) :: next.1, next.2)

/-- `axiosWithRetry(url, options, maxRetries)`: the event trace plus the final
outcome.  The call site (line 371) uses the default `maxRetries = 3`. -/
def axiosWithRetry (oracle : Nat → Except String Page) (maxRetries : Nat) :
    List FetchEvent × Except String Page :=
  axiosRetryLoop oracle maxRetries 0 maxRetries

/-- Voice id chosen for `isAlex = true` at line 274 (Bella). -/
def bellaVoiceId : String := "EXAVITQu4vr4xnSDxMaL"

/-- Voice id chosen for `isAlex = false` at line 274 (Rachel, for Sarah). -/
def rachelVoiceId : String := "21m00Tcm4TlvDq8ikWAM"

/-- Line 274 of `generateSpeech`:
`const voiceId = isAlex ? "EXAVITQu4vr4xnSDxMaL" : "21m00Tcm4TlvDq8ikWAM"`. -/
def generateSpeechVoice (isAlex : Bool) : String :=
  if isAlex then bellaVoiceId else rachelVoiceId

/-- The `'Alex:'` prefix tested by `line.startsWith('Alex:')` (line 329). -/
def alexTag : List Char := "Alex:".toList

/-- What lines 328-331 do with one line of the conversation before calling
`generateSpeech`: a blank line is skipped; otherwise `isAlex` is
`line.startsWith('Alex:')` and the text is `line.split(':')[1].trim()`, which
raises a TypeError when the line contains no colon. -/
inductive LineStep where
  | skipped
  | typeError
  | synthCall (isAlex : Bool) (text : List Char)
deriving DecidableEq

/-- Per-line classification implementing lines 328-331. -/
def classifyLine (line : List Char) : LineStep :=
  if jsTrim line = [] then LineStep.skipped
  else
    match secondField (splitOnChar ':' line) with
    | none => LineStep.typeError
    | some seg => LineStep.synthCall (alexTag.isPrefixOf line) (jsTrim seg)

/-- The voice a line is synthesized with (line 329 feeding line 274). -/
def lineVoice (line : List Char) : String :=
  generateSpeechVoice (alexTag.isPrefixOf line)

/-- The audio a single line contributes: `none` when the line is blank or its
`generateSpeech` call fails (the `catch` of lines 337-341 skips the line). -/
def lineAudio (C : Collabs) (line : List Char) : Option (List Nat) :=
  match classifyLine line with
  | LineStep.synthCall isAlex text =>
    match C.synth text isAlex with
    | Except.ok buf => some buf
    | Except.error _ => none
  | _ => none

/-- The `for (const line of lines)` loop of lines 327-343: blank lines are
skipped, a line without a colon raises a TypeError that aborts the loop, a
failed `generateSpeech` call only skips its own line, and successful buffers
are collected in order. -/
def synthLines (C : Collabs) : List (List Char) → Except String (List (List Nat))
  | [] => Except.ok []
  | line :: rest =>
    match classifyLine line with
    | LineStep.skipped => synthLines C rest
    | LineStep.typeError => Except.error typeErrorMsg
    | LineStep.synthCall isAlex text =>
      match C.synth text isAlex with
      | Except.error _ => synthLines C rest
      | Except.ok buf => (synthLines C rest).map (fun bufs => buf :: bufs)

/-- `generatePodcastAudio` (lines 316-360): split the conversation into lines,
synthesize each, fail when no line produced audio, otherwise concatenate the
buffers (`Buffer.concat`; the temp-file round trip is the identity on the
bytes). -/
def generatePodcastAudio (C : Collabs) (conversation : List Char) :
    Except String (List Nat) :=
  match synthLines C (splitOnChar '\n' conversation) with
  | Except.error e => Except.error e
  | Except.ok audioBuffers =>
    if audioBuffers = [] then Except.error noAudioMsg
    else Except.ok audioBuffers.flatten

/-- The separator of `allConversations.join('\n\n')` (line 468). -/
def twoNewlines : List Char := '\n' :: '\n' :: []

/-- The lines the audio stage iterates over: the conversations joined with
`'\n\n'` and split on `'\n'`. -/
def batchLines (allConversations : List (List Char)) : List (List Char) :=
  splitOnChar '\n' (List.intercalate twoNewlines allConversations)

/-- Lines 464-475: the audio buffer stays `null` when no conversation was
collected or when `generatePodcastAudio` throws (the error is caught and only
logged). -/
def audioStage (C : Collabs) (allConversations : List (List Char)) :
    Option (List Nat) :=
  if allConversations = [] then none
  else
    match generatePodcastAudio C (List.intercalate twoNewlines allConversations) with
    | Except.error _ => none
    | Except.ok buf => some buf

/-- Line 368: a bookmark is processed only when
`bookmark.url && bookmark.url.startsWith('http')`. -/
def codeUrlOk (bm : Bookmark) : Bool :=
  match bm.url with
  | none => false
  | some u => if u = emptyStr then false else jsStartsWith u httpStr

/-- Spec-side predicate: a well-formed HTTP(S) URL in the sense of the
specification ("a well-formed HTTP(S) URL"), i.e. one carrying an explicit
`http://` or `https://` scheme. -/
def specWellFormedHttpUrl (u : String) : Bool :=
  jsStartsWith u ("http://") || jsStartsWith u ("https://")

/-- The body of the per-bookmark iteration of `generateSummaryAndPodcast`
(lines 369-461) for a non-skipped bookmark with url `u`: produces the
bookmark's summary fragment and, on full success, its conversation script.
The outer `catch` (fetch failure or the line-414 throw) yields the
`fetchError` template with `bookmark.title || 'Untitled'`; the inner `catch`
(either Gemini call failing) yields the `genError` template with the page
title. -/
def processBookmark (C : Collabs) (bm : Bookmark) (u : String) :
    Fragment × Option (List Char) :=
  match C.fetchPage u with
  | Except.error e =>
    (Fragment.fetchError u (jsOr (bm.title.getD emptyStr) untitledStr) e bm.dateAdded, none)
  | Except.ok page =>
    let title := pageTitle bm page
    let mainContent := pageText page
    if mainContent = [] ∨ mainContent.length < 50 then
      (Fragment.fetchError u (jsOr (bm.title.getD emptyStr) untitledStr) notEnoughMsg bm.dateAdded,
       none)
    else
      match C.summarize (mainContent.take 2000) with
      | Except.error e => (Fragment.genError u title e bm.dateAdded, none)
      | Except.ok summarizedContent =>
        match C.script (mainContent.take 2000) title with
        | Except.error e => (Fragment.genError u title e bm.dateAdded, none)
        | Except.ok conversation =>
          (Fragment.success u title summarizedContent bm.dateAdded, some conversation)

/-- The `for (const bookmark of bookmarks)` loop (lines 367-462): skipped
bookmarks contribute nothing; every processed bookmark appends exactly one
fragment, and pushes its conversation on full success. -/
def runBookmarks (C : Collabs) : List Bookmark → List Fragment × List (List Char)
  | [] => ([], [])
  | bm :: rest =>
    match bm.url with
    | none => runBookmarks C rest
    | some u =>
      if u = emptyStr ∨ jsStartsWith u httpStr = false then runBookmarks C rest
      else
        ((processBookmark C bm u).1 :: (runBookmarks C rest).1,
         match (processBookmark C bm u).2 with
         | some conv => conv :: (runBookmarks C rest).2
         | none => (runBookmarks C rest).2)

/-- The fragment a processed bookmark contributes. -/
def fragmentOf (C : Collabs) (bm : Bookmark) : Fragment :=
  (processBookmark C bm (bm.url.getD emptyStr)).1

/-- The conversation a processed bookmark contributes, when any. -/
def conversationOf (C : Collabs) (bm : Bookmark) : Option (List Char) :=
  (processBookmark C bm (bm.url.getD emptyStr)).2

/-- `generateSummaryAndPodcast` (lines 362-478): iterate the bookmarks, then
run the audio stage over the collected conversations; always returns. -/
def generateSummaryAndPodcast (C : Collabs) (bookmarks : List Bookmark) :
    PipelineResult :=
  let r := runBookmarks C bookmarks
  PipelineResult.mk r.1 (audioStage C r.2) podcastAudioId

/-- A fragment rendered from either catch template rather than the success
template. -/
def isErrorFragment : Fragment → Bool
  | Fragment.success _ _ _ _ => false
  | Fragment.genError _ _ _ _ => true
  | Fragment.fetchError _ _ _ _ => true

/-- The fixed header of the summary document (line 363). -/
def summaryHeader : String := "<h2>Your Bookmarked Content Summary</h2>"

/-- The HTML template of one fragment, from lines 429-437, 440-448 and
452-460 of `server.js`. -/
def fragmentHtml (C : Collabs) : Fragment → String
  | Fragment.success u t s d =>
    "\n          <div style=\"margin-bottom: 30px; padding: 20px; border: 1px solid #eee; border-radius: 8px;\">\n            <h3 style=\"margin-top: 0; color: #2c3e50;\">\n              <a href=\"" ++
      u ++ "\" style=\"color: #3498db; text-decoration: none;\">" ++ t ++
      "</a>\n            </h3>\n            <p style=\"color: #34495e;\">" ++ s ++
      "</p>\n            <small style=\"color: #7f8c8d;\">Bookmarked on: " ++
      C.renderDate d ++ "</small>\n          </div>\n        "
  | Fragment.genError u t e d =>
    "\n          <div style=\"margin-bottom: 30px; padding: 20px; border: 1px solid #eee; border-radius: 8px;\">\n            <h3 style=\"margin-top: 0; color: #2c3e50;\">\n              <a href=\"" ++
      u ++ "\" style=\"color: #3498db; text-decoration: none;\">" ++ t ++
      "</a>\n            </h3>\n            <p style=\"color: #e74c3c;\">Unable to generate summary: " ++ e ++
      "</p>\n            <small style=\"color: #7f8c8d;\">Bookmarked on: " ++
      C.renderDate d ++ "</small>\n          </div>\n        "
  | Fragment.fetchError u t e d =>
    "\n        <div style=\"margin-bottom: 30px; padding: 20px; border: 1px solid #eee; border-radius: 8px;\">\n          <h3 style=\"margin-top: 0; color: #2c3e50;\">\n            <a href=\"" ++
      u ++ "\" style=\"color: #3498db; text-decoration: none;\">" ++ t ++
      "</a>\n          </h3>\n          <p style=\"color: #e74c3c;\">Unable to fetch content: " ++ e ++
      "</p>\n          <small style=\"color: #7f8c8d;\">Bookmarked on: " ++
      C.renderDate d ++ "</small>\n        </div>\n      "

/-- The summary string the caller receives: header plus rendered fragments in
order. -/
def renderSummary (C : Collabs) (r : PipelineResult) : String :=
  summaryHeader ++ String.join (r.summary.map (fragmentHtml C))

/-- A collaborator stub on which every external call fails. -/
def stubFailC : Collabs :=
  Collabs.mk (fun _ => Except.error netErrMsg) (fun _ => Except.error netErrMsg)
    (fun _ _ => Except.error netErrMsg) (fun _ _ => Except.error netErrMsg)
    (fun _ => emptyStr)

/-- A collaborator stub whose speech synthesis always succeeds with a fixed
two-byte buffer. -/
def stubSynthOkC : Collabs :=
  Collabs.mk (fun _ => Except.error netErrMsg) (fun _ => Except.error netErrMsg)
    (fun _ _ => Except.error netErrMsg) (fun _ _ => Except.ok (1 :: 2 :: []))
    (fun _ => emptyStr)

/-- A conversation whose middle line has no colon: the concrete input on which
the per-line TypeError of line 330 fires. -/
def badConversation : List Char :=
  "Alex: Hi\nThanks for listening\nSarah: Bye".toList

/-- A URL that starts with `http` but is not a well-formed HTTP(S) URL. -/
def httpNope : String := "httpnope"

/-- Bookmark carrying that URL. -/
def cexBm : Bookmark := Bookmark.mk (some httpNope) none 0

/-- A good-looking bookmark URL used by witnesses. -/
def httpA : String := "http://a.example"

/-- Bookmark used by the error-isolation witness. -/
def bmW : Bookmark := Bookmark.mk (some httpA) (some "T") 5

/-- A page with no matching selector and a too-short body. -/
def pageShort : Page := Page.mk emptyStr (fun _ => none) "hi".toList

/-- Collaborators whose fetch returns `pageShort`. -/
def stubShortC : Collabs :=
  Collabs.mk (fun _ => Except.ok pageShort) (fun _ => Except.error netErrMsg)
    (fun _ _ => Except.error netErrMsg) (fun _ _ => Except.error netErrMsg)
    (fun _ => emptyStr)

/-- Bookmark used by the extraction-threshold witness. -/
def bm6 : Bookmark := Bookmark.mk (some httpA) none 7

/-- The selector whose candidate text has exactly 100 characters in the
selector-fallback counterexample. -/
def articleSel : String := "article"

/-- A candidate text of exactly 100 characters. -/
def hundredAs : List Char := List.replicate 100 'a'

/-- Page whose only matching selector yields exactly 100 characters. -/
def pageCex : Page :=
  Page.mk emptyStr (fun s => if s = articleSel then some hundredAs else none)
    "FULL PAGE BODY TEXT FOR FALLBACK".toList

/-- An oracle on which every axios attempt fails. -/
def failOracle : Nat → Except String Page := fun _ => Except.error netErrMsg

/-- The conversation list used by the audio-stage witness. -/
def convsW : List (List Char) := ("Alex: hi".toList) :: []

/-- A dialogue line of Sarah with two colons, used by witnesses. -/
def sarahLine : List Char := "Sarah: hello: world".toList

/-- A dialogue line of Alex, used by witnesses. -/
def alexLine : List Char := "Alex: hi".toList

/-- Code-side: `line.split(':')[1].trim()` (line 330) when the indexing yields
a string; `none` models the `undefined` that makes `.trim()` throw. -/
def lineTextForSpeech (line : List Char) : Option (List Char) :=
  (secondField (splitOnChar ':' line)).map jsTrim

/-- Lemma section: proofs about the embedded pipeline. -/
theorem splitOnChar_ne_nil (c : Char) (l : List Char) : splitOnChar c l ≠ [] := by
  induction l with
  | nil => simp [splitOnChar]
  | cons x xs ih =>
    by_cases hx : x = c
    · simp [splitOnChar, hx]
    · simp only [splitOnChar, if_neg hx]
      cases h : splitOnChar c xs <;> simp

/-- The first field of a JavaScript split is the longest colon-free prefix. -/
theorem splitOnChar_head (c : Char) (l : List Char) :
    (splitOnChar c l).head? = some (l.takeWhile (fun x => x != c)) := by
  induction l with
  | nil => rfl
  | cons x xs ih =>
    by_cases hx : x = c
    · subst hx
      simp [splitOnChar, List.takeWhile_cons]
    · simp only [splitOnChar, if_neg hx]
      cases h : splitOnChar c xs with
      | nil => exact absurd h (splitOnChar_ne_nil c xs)
      | cons y ys =>
        rw [h] at ih
        simp only [List.head?] at ih
        simp [List.takeWhile_cons, hx, ← Option.some_inj.mp ih]

/-- Splitting a list that contains the separator: head field plus the split of
what follows the first separator. -/
theorem splitOnChar_of_mem (c : Char) (l : List Char) (h : c ∈ l) :
    splitOnChar c l =
      l.takeWhile (fun x => x != c) ::
        splitOnChar c ((l.dropWhile (fun x => x != c)).drop 1) := by
  induction l with
  | nil => simp at h
  | cons x xs ih =>
    by_cases hx : x = c
    · subst hx
      simp [splitOnChar, List.takeWhile_cons, List.dropWhile_cons]
    · have hxs : c ∈ xs := by
        rcases List.mem_cons.mp h with hcx | hcx
        · exact absurd hcx.symm hx
        · exact hcx
      simp only [splitOnChar, if_neg hx, ih hxs]
      simp [List.takeWhile_cons, List.dropWhile_cons, hx]

/-- For a line containing a colon, `split(':')[1]` is exactly the segment
between the first colon and the following colon or end of line. -/
theorem splitOnChar_second (line : List Char) (h : ':' ∈ line) :
    secondField (splitOnChar ':' line) = some (specSegment line) := by
  rw [secondField, splitOnChar_of_mem ':' line h]
  simp only [List.drop_succ_cons, List.drop_zero]
  rw [splitOnChar_head]
  rfl

/-- C1: the claim says a non-blank script line that does not match the
`"<Speaker>: <text>"` pattern is silently dropped and is never fatal to the
batch.  The code instead (a) throws the TypeError of
`line.split(':')[1].trim()` as soon as it meets a non-blank line without a
colon, aborting `generatePodcastAudio` entirely — the later well-formed line
`"Sarah: Bye"` is never synthesized even though synthesis itself always
succeeds here — and (b) does not drop a colon-bearing line with an unexpected
speaker tag: `"NOTE: remember this"` is passed on to speech synthesis. -/
theorem claim1_malformed_line_fatal :
    generatePodcastAudio stubSynthOkC badConversation = Except.error typeErrorMsg ∧
    classifyLine ("NOTE: remember this".toList) =
      LineStep.synthCall false ("remember this".toList) := by decide

/-- C2 counterexample: the bookmark list `[{url: "httpnope"}]` contains no
bookmark with a well-formed HTTP(S) URL, so the claim promises zero fragments;
the code only tests `startsWith('http')` and produces one fragment. -/
theorem claim2_counterexample :
    (generateSummaryAndPodcast stubFailC (cexBm :: [])).summary.length = 1 ∧
    specWellFormedHttpUrl httpNope = false := by decide

/-- C5 counterexample: when every attempt fails, the observed trace of
`axiosWithRetry` is attempt, 1000 ms sleep, attempt, 2000 ms sleep, attempt —
the 3 s backoff delay promised by the claim never occurs. -/
theorem claim5_counterexample :
    (axiosWithRetry failOracle 3).1 =
      FetchEvent.attempt 0 :: FetchEvent.sleep 1000 :: FetchEvent.attempt 1 ::
        FetchEvent.sleep 2000 :: FetchEvent.attempt 2 :: [] ∧
    FetchEvent.sleep 3000 ∉ (axiosWithRetry failOracle 3).1 := by decide

/-- C7 counterexample: on `pageCex` no candidate region exceeds 100
characters, so the claim requires the fallback to the page body; the code
keeps the exactly-100-character candidate of the last matching selector
instead. -/
theorem claim7_counterexample :
    firstLongIn pageCex contentSelectors = none ∧
    extractMainContent pageCex = hundredAs ∧
    jsTrim pageCex.bodyText ≠ hundredAs := by decide

/-- C9: for every non-blank dialogue line containing at least one colon, the
text passed to speech synthesis is exactly the segment of the line between
the first colon and the second colon (or the end of the line), trimmed; text
after a second colon is discarded. -/
theorem claim9_text_between_colons (line : List Char) (h : ':' ∈ line) :
    lineTextForSpeech line = some (jsTrim (specSegment line)) := by
  rw [lineTextForSpeech, splitOnChar_second line h]
  rfl

/-- C9 witness: on `"Sarah: hello: world"` the synthesized text is the trimmed
segment between the colons. -/
theorem claim9_witness :
    ':' ∈ sarahLine ∧
      lineTextForSpeech sarahLine = some (jsTrim (specSegment sarahLine)) :=
  ⟨by decide, claim9_text_between_colons sarahLine (by decide)⟩

/-- C10: a non-blank line with a colon is synthesized with the Bella voice id
`EXAVITQu4vr4xnSDxMaL` exactly when the raw line starts with `"Alex:"`; every
other such line — Sarah's and misspelled speaker tags alike — gets the Rachel
voice id `21m00Tcm4TlvDq8ikWAM`. -/
theorem claim10_voice_selection (line : List Char) (h1 : jsTrim line ≠ [])
    (h2 : ':' ∈ line) :
    classifyLine line =
        LineStep.synthCall (alexTag.isPrefixOf line) (jsTrim (specSegment line)) ∧
    (lineVoice line = bellaVoiceId ↔ alexTag.isPrefixOf line = true) ∧
    (alexTag.isPrefixOf line = false → lineVoice line = rachelVoiceId) := by
  refine ⟨?_, ?_, ?_⟩
  · rw [classifyLine, if_neg h1, splitOnChar_second line h2]
  · constructor
    · intro hv
      cases h : alexTag.isPrefixOf line with
      | true => rfl
      | false =>
        rw [lineVoice, h] at hv
        exact absurd hv (by decide)
    · intro h
      rw [lineVoice, h]
      rfl
  · intro h
    rw [lineVoice, h]
    rfl

/-- C10 witness: the line `"Alex: hi"` is classified for synthesis and its
voice id is Bella's exactly because the line starts with `"Alex:"`. -/
theorem claim10_witness :
    classifyLine alexLine =
        LineStep.synthCall (alexTag.isPrefixOf alexLine) (jsTrim (specSegment alexLine)) ∧
    (lineVoice alexLine = bellaVoiceId ↔ alexTag.isPrefixOf alexLine = true) ∧
    (alexTag.isPrefixOf alexLine = false → lineVoice alexLine = rachelVoiceId) :=
  claim10_voice_selection alexLine (by decide) (by decide)

/-- If some selector's candidate exceeds 100 characters, the loop stops at the
first such selector and returns its trimmed text, whatever `mainContent` held
before. -/
theorem selectLoop_of_firstLong (page : Page) (sels : List String) (t : List Char)
    (h : firstLongIn page sels = some t) :
    ∀ acc, selectLoop page sels acc = t := by
  induction sels with
  | nil => simp [firstLongIn] at h
  | cons s rest ih =>
    intro acc
    cases hs : page.select s with
    | none =>
      simp only [firstLongIn, hs] at h
      simp only [selectLoop, hs]
      exact ih h acc
    | some tx =>
      by_cases hl : 100 < (jsTrim tx).length
      · simp only [firstLongIn, hs, if_pos hl] at h
        simp only [selectLoop, hs, if_pos hl]
        exact Option.some_inj.mp h
      · simp only [firstLongIn, hs, if_neg hl] at h
        simp only [selectLoop, hs, if_neg hl]
        exact ih h (jsTrim tx)

/-- When no candidate exceeds 100 characters the loop ends holding the trimmed
text of the last matching selector (or the initial value when none matched). -/
theorem selectLoop_of_no_firstLong (page : Page) (sels : List String)
    (h : firstLongIn page sels = none) :
    ∀ acc, selectLoop page sels acc =
      (match lastMatchIn page sels with
       | some t => t
       | none => acc) := by
  induction sels with
  | nil => intro acc; rfl
  | cons s rest ih =>
    intro acc
    cases hs : page.select s with
    | none =>
      simp only [firstLongIn, hs] at h
      simp only [selectLoop, lastMatchIn, hs]
      rw [ih h acc]
      cases hlm : lastMatchIn page rest <;> simp [hlm]
    | some tx =>
      have hl : ¬ 100 < (jsTrim tx).length := by
        intro hc
        simp only [firstLongIn, hs, if_pos hc] at h
        exact Option.noConfusion h
      simp only [firstLongIn, hs, if_neg hl] at h
      simp only [selectLoop, lastMatchIn, hs, if_neg hl]
      rw [ih h (jsTrim tx)]
      cases hlm : lastMatchIn page rest <;> simp [hlm]

/-- A winning candidate of the selector loop really exceeds 100 characters. -/
theorem firstLongIn_length (page : Page) (sels : List String) (t : List Char)
    (h : firstLongIn page sels = some t) : 100 < t.length := by
  induction sels with
  | nil => simp [firstLongIn] at h
  | cons s rest ih =>
    cases hs : page.select s with
    | none =>
      simp only [firstLongIn, hs] at h
      exact ih h
    | some tx =>
      by_cases hl : 100 < (jsTrim tx).length
      · simp only [firstLongIn, hs, if_pos hl] at h
        rw [← Option.some_inj.mp h]
        exact hl
      · simp only [firstLongIn, hs, if_neg hl] at h
        exact ih h

/-- C7 amended: the extractor tries the selectors in order and stops at the
first candidate whose trimmed text exceeds 100 characters; when no candidate
exceeds 100 characters, the trimmed text of the last matching selector is
retained and is used whenever it has at least (i.e. exactly) 100 characters,
and the extractor falls back to the full page body exactly when that retained
text is shorter than 100 characters or no selector matched at all. -/
theorem claim7_amended_selector_fallback (page : Page) :
    extractMainContent page = extractSpec page := by
  simp only [extractMainContent, extractSpec]
  cases hf : firstLongIn page contentSelectors with
  | some t =>
    rw [selectLoop_of_firstLong page contentSelectors t hf []]
    have hl := firstLongIn_length page contentSelectors t hf
    have hcond : ¬(t = [] ∨ t.length < 100) := by
      rintro (rfl | hlt)
      · simp at hl
      · omega
    rw [if_neg hcond]
  | none =>
    rw [selectLoop_of_no_firstLong page contentSelectors hf []]
    cases hlm : lastMatchIn page contentSelectors with
    | none => simp
    | some t =>
      simp only
      by_cases hlt : t.length < 100
      · rw [if_pos (Or.inr hlt), if_neg (by omega)]
      · have hne : t ≠ [] := by
          intro hnil
          rw [hnil] at hlt
          simp at hlt
        rw [if_neg (by tauto), if_pos (by omega)]

/-- The summary part of the pipeline result: exactly one fragment, in input
order, for every bookmark that passes the line-368 URL check, none for the
others; conversations are collected from the fully successful bookmarks in the
same order. -/
theorem runBookmarks_eq (C : Collabs) (bms : List Bookmark) :
    runBookmarks C bms =
      ((bms.filter codeUrlOk).map (fragmentOf C),
       (bms.filter codeUrlOk).filterMap (conversationOf C)) := by
  induction bms with
  | nil => rfl
  | cons bm rest ih =>
    cases hu : bm.url with
    | none =>
      have hok : codeUrlOk bm = false := by simp [codeUrlOk, hu]
      simp [runBookmarks, hu, List.filter_cons, hok, ih]
    | some u =>
      by_cases he : u = emptyStr
      · have hok : codeUrlOk bm = false := by simp [codeUrlOk, hu, he]
        simp [runBookmarks, hu, he, List.filter_cons, hok, ih]
      · by_cases hs : jsStartsWith u httpStr = true
        · have hok : codeUrlOk bm = true := by simp [codeUrlOk, hu, he, hs]
          have hcond : ¬(u = emptyStr ∨ jsStartsWith u httpStr = false) := by
            push_neg
            exact ⟨he, by simp [hs]⟩
          have hgd : bm.url.getD emptyStr = u := by simp [hu]
          simp only [runBookmarks, hu, if_neg hcond, List.filter_cons, hok, if_pos,
            List.map_cons, List.filterMap_cons, ih, fragmentOf, conversationOf, hgd]
          cases hc : (processBookmark C bm u).2 <;> simp [hc]
        · have hok : codeUrlOk bm = false := by simp [codeUrlOk, hu, he, hs]
          have hcond : u = emptyStr ∨ jsStartsWith u httpStr = false := by
            simp at hs
            exact Or.inr hs
          simp [runBookmarks, hu, if_pos hcond, List.filter_cons, hok, ih]

/-- The summary of the pipeline result, as the ordered fragment list of the
processed bookmarks. -/
theorem summary_eq (C : Collabs) (bms : List Bookmark) :
    (generateSummaryAndPodcast C bms).summary =
      (bms.filter codeUrlOk).map (fragmentOf C) := by
  simp [generateSummaryAndPodcast, runBookmarks_eq]

/-- C2 amended: the summary document contains exactly one fragment, in input
order, for every bookmark whose URL is present, non-empty and starts with the
string `"http"` (the only check the code performs); a bookmark whose URL is
missing, empty, or does not start with `"http"` is skipped immediately, with
no error recorded, and contributes zero fragments. -/
theorem claim2_amended_fragment_order (C : Collabs) (bms : List Bookmark) :
    (generateSummaryAndPodcast C bms).summary =
      (bms.filter codeUrlOk).map (fragmentOf C) := by
  rw [summary_eq]

/-- C3: the orchestrator returns a `PipelineResult` covering every bookmark,
and a fetch, extraction, or generation failure for one bookmark is converted
into an error fragment of the summary document for that bookmark — with no
dialogue contribution — rather than propagated as a request failure. -/
theorem claim3_errors_isolated (C : Collabs) (bms : List Bookmark) (bm : Bookmark)
    (u : String) (hmem : bm ∈ bms) (hurl : bm.url = some u) (hok : codeUrlOk bm = true)
    (herr :
      (∃ e, C.fetchPage u = Except.error e) ∨
      ∃ page, C.fetchPage u = Except.ok page ∧
        ((pageText page).length < 50 ∨
         (∃ e, C.summarize ((pageText page).take 2000) = Except.error e) ∨
         (∃ s e, C.summarize ((pageText page).take 2000) = Except.ok s ∧
            C.script ((pageText page).take 2000) (pageTitle bm page) = Except.error e))) :
    isErrorFragment (processBookmark C bm u).1 = true ∧
    (processBookmark C bm u).2 = none ∧
    (processBookmark C bm u).1 ∈ (generateSummaryAndPodcast C bms).summary := by
  have hfrag : isErrorFragment (processBookmark C bm u).1 = true ∧
      (processBookmark C bm u).2 = none := by
    rcases herr with ⟨e, he⟩ | ⟨page, hp, hcase⟩
    · simp [processBookmark, he, isErrorFragment]
    · simp only [processBookmark, hp]
      by_cases hshort : pageText page = [] ∨ (pageText page).length < 50
      · rw [if_pos hshort]
        exact ⟨rfl, rfl⟩
      · rw [if_neg hshort]
        rcases hcase with hlen | ⟨e, hsum⟩ | ⟨s, e, hsum, hscr⟩
        · exact absurd (Or.inr hlen) hshort
        · simp [hsum, isErrorFragment]
        · simp [hsum, hscr, isErrorFragment]
  refine ⟨hfrag.1, hfrag.2, ?_⟩
  rw [summary_eq]
  have hfo : fragmentOf C bm = (processBookmark C bm u).1 := by
    simp [fragmentOf, hurl]
  rw [← hfo]
  exact List.mem_map_of_mem _ (List.mem_filter.mpr ⟨hmem, hok⟩)

/-- C3 witness: a bookmark whose fetch fails with a network error yields an
error fragment that is present in the final summary, contributes no dialogue,
and the pipeline still returns. -/
theorem claim3_witness :
    isErrorFragment (processBookmark stubFailC bmW httpA).1 = true ∧
    (processBookmark stubFailC bmW httpA).2 = none ∧
    (processBookmark stubFailC bmW httpA).1 ∈
      (generateSummaryAndPodcast stubFailC (bmW :: [])).summary :=
  claim3_errors_isolated stubFailC (bmW :: []) bmW httpA (List.mem_cons_self _ _) rfl
    (by decide) (Or.inl ⟨netErrMsg, rfl⟩)

/-- C6: given a successful fetch, the bookmark takes the extraction-failure
exit — the `'Not enough content extracted'` error fragment with no dialogue
contribution — if and only if the whitespace-normalized, punctuation-stripped
text is shorter than 50 characters. -/
theorem claim6_extraction_threshold (C : Collabs) (bm : Bookmark) (u : String)
    (page : Page) (hfetch : C.fetchPage u = Except.ok page) :
    (processBookmark C bm u =
        (Fragment.fetchError u (jsOr (bm.title.getD emptyStr) untitledStr)
          notEnoughMsg bm.dateAdded, none)) ↔
      (pageText page).length < 50 := by
  simp only [processBookmark, hfetch]
  by_cases hshort : pageText page = [] ∨ (pageText page).length < 50
  · rw [if_pos hshort]
    have hlen : (pageText page).length < 50 := by
      rcases hshort with h | h
      · rw [h]
        simp
      · exact h
    simp [hlen]
  · rw [if_neg hshort]
    push_neg at hshort
    constructor
    · intro h
      cases hsum : C.summarize ((pageText page).take 2000) with
      | error e =>
        rw [hsum] at h
        simp at h
      | ok s =>
        rw [hsum] at h
        cases hscr : C.script ((pageText page).take 2000) (pageTitle bm page) with
        | error e =>
          rw [hscr] at h
          simp at h
        | ok conv =>
          rw [hscr] at h
          simp at h
    · intro h
      exact absurd h (by omega)

/-- C6 witness: a page whose body is just `"hi"` trips the 50-character
threshold and produces exactly the extraction-failure fragment. -/
theorem claim6_witness :
    stubShortC.fetchPage httpA = Except.ok pageShort ∧
    ((processBookmark stubShortC bm6 httpA =
        (Fragment.fetchError httpA (jsOr (bm6.title.getD emptyStr) untitledStr)
          notEnoughMsg bm6.dateAdded, none)) ↔
      (pageText pageShort).length < 50) :=
  ⟨rfl, claim6_extraction_threshold stubShortC bm6 httpA pageShort rfl⟩

/-- When every non-blank line of the batch contains a colon, the synthesis
loop never hits the TypeError: it returns, in order, exactly the buffers of
the lines whose `generateSpeech` call succeeded, each failed or blank line
contributing nothing. -/
theorem synthLines_ok_of_colon (C : Collabs) (lines : List (List Char))
    (h : ∀ line ∈ lines, jsTrim line ≠ [] → ':' ∈ line) :
    synthLines C lines = Except.ok (lines.filterMap (lineAudio C)) := by
  induction lines with
  | nil => rfl
  | cons line rest ih =>
    have hrest : ∀ l ∈ rest, jsTrim l ≠ [] → ':' ∈ l :=
      fun l hl => h l (List.mem_cons_of_mem _ hl)
    by_cases hb : jsTrim line = []
    · have hcl : classifyLine line = LineStep.skipped := by
        rw [classifyLine, if_pos hb]
      simp [synthLines, hcl, lineAudio, ih hrest, List.filterMap_cons]
    · have hc : ':' ∈ line := h line (List.mem_cons_self _ _) hb
      have hcl : classifyLine line =
          LineStep.synthCall (alexTag.isPrefixOf line) (jsTrim (specSegment line)) := by
        rw [classifyLine, if_neg hb, splitOnChar_second line hc]
      cases hs : C.synth (jsTrim (specSegment line)) (alexTag.isPrefixOf line) with
      | error e =>
        simp [synthLines, hcl, hs, lineAudio, ih hrest, List.filterMap_cons]
      | ok buf =>
        simp [synthLines, hcl, hs, lineAudio, ih hrest, List.filterMap_cons, Except.map]

/-- C4: over a batch of collected conversations whose non-blank lines all
carry a colon, the audio stage produces exactly the concatenation of the
buffers of the lines whose synthesis succeeded — a failing line only loses its
own audio — and when every line fails synthesis the audio buffer is `null`
and no exception reaches the caller. -/
theorem claim4_line_failure_isolated (C : Collabs)
    (allConversations : List (List Char)) (hne : allConversations ≠ [])
    (hcolon : ∀ line ∈ batchLines allConversations, jsTrim line ≠ [] → ':' ∈ line) :
    audioStage C allConversations =
      (if (batchLines allConversations).filterMap (lineAudio C) = [] then none
       else some (((batchLines allConversations).filterMap (lineAudio C)).flatten)) ∧
    ((∀ line ∈ batchLines allConversations, lineAudio C line = none) →
      audioStage C allConversations = none) := by
  simp only [batchLines] at hcolon ⊢
  have hsl := synthLines_ok_of_colon C
    (splitOnChar '\n' (List.intercalate twoNewlines allConversations)) hcolon
  have heq : audioStage C allConversations =
      (if (splitOnChar '\n' (List.intercalate twoNewlines allConversations)).filterMap
            (lineAudio C) = [] then none
       else some (((splitOnChar '\n'
              (List.intercalate twoNewlines allConversations)).filterMap
            (lineAudio C)).flatten)) := by
    simp only [audioStage, if_neg hne, generatePodcastAudio, hsl]
    by_cases hb : (splitOnChar '\n'
        (List.intercalate twoNewlines allConversations)).filterMap (lineAudio C) = []
    · simp [hb]
    · simp [hb]
  refine ⟨heq, ?_⟩
  intro hall
  have hb : (splitOnChar '\n'
      (List.intercalate twoNewlines allConversations)).filterMap (lineAudio C) = [] :=
    List.filterMap_eq_nil_iff.mpr hall
  rw [heq, if_pos hb]

/-- C4 witness: a one-conversation batch on which every synthesis call fails
ends with a `null` audio buffer and no exception. -/
theorem claim4_witness : audioStage stubFailC convsW = none :=
  (claim4_line_failure_isolated stubFailC convsW (by decide) (by decide)).2 (by decide)

/-- C5 amended: the fetch is attempted up to 3 times; between consecutive
failed attempts the code sleeps 1000 ms and then 2000 ms — linearly
increasing, but there is no 3 s delay: after the third failed attempt the
error is rethrown immediately.  When the fetch ultimately fails, exactly 3
attempts are observed with strictly increasing delays of 1000 ms and 2000 ms
between them, and the surfaced error is that of the last attempt. -/
theorem claim5_amended_retry_trace (oracle : Nat → Except String Page)
    (h : ∀ i, i < 3 → ∃ e, oracle i = Except.error e) :
    (axiosWithRetry oracle 3).1 =
      FetchEvent.attempt 0 :: FetchEvent.sleep 1000 :: FetchEvent.attempt 1 ::
        FetchEvent.sleep 2000 :: FetchEvent.attempt 2 :: [] ∧
    ∃ e, oracle 2 = Except.error e ∧ (axiosWithRetry oracle 3).2 = Except.error e := by
  obtain ⟨e0, h0⟩ := h 0 (by omega)
  obtain ⟨e1, h1⟩ := h 1 (by omega)
  obtain ⟨e2, h2⟩ := h 2 (by omega)
  refine ⟨?_, e2, h2, ?_⟩ <;>
    simp [axiosWithRetry, axiosRetryLoop, h0, h1, h2]

/-- C5 witness: with an always-failing oracle the trace has exactly 3 attempts
separated by the 1000 ms and 2000 ms sleeps, and the last error surfaces. -/
theorem claim5_witness :
    (axiosWithRetry failOracle 3).1 =
      FetchEvent.attempt 0 :: FetchEvent.sleep 1000 :: FetchEvent.attempt 1 ::
        FetchEvent.sleep 2000 :: FetchEvent.attempt 2 :: [] ∧
    ∃ e, failOracle 2 = Except.error e ∧
      (axiosWithRetry failOracle 3).2 = Except.error e :=
  claim5_amended_retry_trace failOracle (fun _ _ => ⟨netErrMsg, rfl⟩)

/-- C8: the pipeline is deterministic — two runs on identical bookmark lists
with identical (stubbed) collaborators render byte-identical summary HTML and
audio buffers of identical length. -/
theorem claim8_deterministic (Ca Cb : Collabs) (ba bb : List Bookmark)
    (hC : Ca = Cb) (hb : ba = bb) :
    renderSummary Ca (generateSummaryAndPodcast Ca ba) =
      renderSummary Cb (generateSummaryAndPodcast Cb bb) ∧
    (generateSummaryAndPodcast Ca ba).audioBuffer.map List.length =
      (generateSummaryAndPodcast Cb bb).audioBuffer.map List.length := by
  subst hC
  subst hb
  exact ⟨rfl, rfl⟩

/-- C8 witness: instantiated on a concrete one-bookmark list and stub
collaborators. -/
theorem claim8_witness :
    renderSummary stubFailC (generateSummaryAndPodcast stubFailC (bmW :: [])) =
      renderSummary stubFailC (generateSummaryAndPodcast stubFailC (bmW :: [])) ∧
    (generateSummaryAndPodcast stubFailC (bmW :: [])).audioBuffer.map List.length =
      (generateSummaryAndPodcast stubFailC (bmW :: [])).audioBuffer.map List.length :=
  claim8_deterministic stubFailC stubFailC (bmW :: []) (bmW :: []) rfl rfl

end Podbackend
